import Mathlib

/-!
Verification of the profiling-and-narrative pipeline of the `eda_auto`
repository against its specification.

The Python sources are shallowly embedded as Lean definitions:

* `app/services/eda.py` : frame model, datetime coercion, missingness
  ranking, correlation ranking, chart emission (chart rendering itself is
  file plus matplotlib input and output, so the individual renderers are
  parameters returning `Except`; the sequencing logic around them is the
  code under verification).
* `app/services/narrative.py` : `generate_narrative`.
* `app/services/pipeline.py` : `StepLog`, `run_full_pipeline` (stage
  bodies are effectful, so the four stage actions are `Except`-valued
  parameters; the orchestration, logging and error conversion are the
  code under verification).  Wall-clock timestamps are modelled by an
  abstract monotone counter, since no claim depends on real time.
* `app/api/reports.py` : `download_report` (the filesystem is a
  parameter; path arithmetic is modelled on slash-separated segments).

Machine floats of the source are modelled as exact rationals; pandas
Pearson correlation values and pandas `describe` summaries enter as
parameters (they are computed by the external library, while the ranking
and truncation logic applied to them is repository code and is embedded).
-/

set_option maxHeartbeats 1000000
set_option maxRecDepth 20000

namespace EdaAuto

/-! ## Generic stable sorting by a key

Python `list.sort(key=k, reverse=True)` is a stable descending sort.  A
stable sort is uniquely determined by the ordering and the input, so it
is modelled by `List.insertionSort` with the non-strict descending
relation (Mathlib insertion sort is stable: an element is inserted
before the first element it relates to, hence after all earlier tied
elements).  pandas `Series.sort_values(ascending=False)` is stable as
well: `nargsort` (`pandas/core/sorting.py`) reverses the values and the
indexer before the ascending argsort and reverses the result again
afterwards (GH 35922), and the double reversal turns a stable ascending
kernel into a stable descending sort, ties keeping their original
order.  Both are therefore the same stable descending sort by key. -/

def keyDescRel {α β : Type} [LinearOrder β] (key : α → β) : α → α → Prop :=
  fun a b => key b ≤ key a

def keyAscRel {α β : Type} [LinearOrder β] (key : α → β) : α → α → Prop :=
  fun a b => key a ≤ key b

instance {α β : Type} [LinearOrder β] (key : α → β) : DecidableRel (keyDescRel key) :=
  fun a b => inferInstanceAs (Decidable (key b ≤ key a))

instance {α β : Type} [LinearOrder β] (key : α → β) : DecidableRel (keyAscRel key) :=
  fun a b => inferInstanceAs (Decidable (key a ≤ key b))

instance {α β : Type} [LinearOrder β] (key : α → β) : IsTotal α (keyDescRel key) :=
  ⟨fun a b => le_total (key b) (key a)⟩

instance {α β : Type} [LinearOrder β] (key : α → β) : IsTotal α (keyAscRel key) :=
  ⟨fun a b => le_total (key a) (key b)⟩

instance {α β : Type} [LinearOrder β] (key : α → β) : IsTrans α (keyDescRel key) :=
  ⟨fun _ _ _ h1 h2 => le_trans h2 h1⟩

instance {α β : Type} [LinearOrder β] (key : α → β) : IsTrans α (keyAscRel key) :=
  ⟨fun _ _ _ h1 h2 => le_trans h1 h2⟩

/-- Stable descending sort by a key: the model of Python
`list.sort(key=key, reverse=True)`. -/
def sortDescStable {α β : Type} [LinearOrder β] (key : α → β) (l : List α) : List α :=
  List.insertionSort (keyDescRel key) l

/-- Model of pandas `Series.sort_values(ascending=False)` on an
association list: a stable descending sort.  pandas `nargsort` reverses
the values and the indexer before an ascending argsort and reverses the
result afterwards (GH 35922), which makes the descending sort stable:
tied entries keep their original order. -/
def pandasSortValuesDesc {α β : Type} [LinearOrder β] (key : α → β) (l : List α) : List α :=
  List.insertionSort (keyDescRel key) l

/-! ## Small string and number helpers -/

/-- Python `s[-n:]`: the last `n` characters of a string (the whole
string when it is shorter). -/
def strLastN (s : String) (n : Nat) : String :=
  String.mk (s.data.drop (s.data.length - n))

/-- Python `sep.join(parts)`. -/
def joinSep (sep : String) : List String → String
  | [] => ""
  | [x] => x
  | x :: y :: xs => x ++ sep ++ joinSep sep (y :: xs)

/-- Chunks of three characters, used for thousands grouping. -/
def chunk3 : List Char → List (List Char)
  | [] => []
  | c :: cs => (c :: cs).take 3 :: chunk3 ((c :: cs).drop 3)
termination_by l => l.length
decreasing_by simp; omega

/-- Python format `f"{n:,}"`: decimal digits grouped by thousands. -/
def fmtThousands (n : Nat) : String :=
  String.mk (List.intercalate [','] (((chunk3 (toString n).data.reverse).map List.reverse).reverse))

/-- Rendering of a rational as text.  It stands in for Python `str` /
`"%.3g"` on floats; no claim depends on the digits produced, only on the
shape of the sentences around them. -/
def showRat (q : ℚ) : String :=
  toString q

/-- Round half to even on rationals, the model of Python `round`. -/
def roundHalfEven (q : ℚ) : ℤ :=
  let f := ⌊q⌋
  if q - f < 1/2 then f
  else if (1:ℚ)/2 < q - f then f + 1
  else if f % 2 = 0 then f else f + 1

/-- Python `round(x, 3)` on an exact rational. -/
def pyRound3 (q : ℚ) : ℚ :=
  (roundHalfEven (q * 1000) : ℚ) / 1000

/-! ## Tabular frame model (`pandas.DataFrame` as loaded by `_load_df`)

A frame is an ordered sequence of named columns.  Each column carries a
uniform dtype: numeric (`float64`-like, exact rationals here), textual
(`object` dtype) or temporal (`datetime64`, an abstract integer
timestamp).  Cells are nullable. -/

inductive ColData : Type where
  | numeric : List (Option ℚ) → ColData
  | textual : List (Option String) → ColData
  | temporal : List (Option Int) → ColData
deriving DecidableEq

structure Col : Type where
  name : String
  data : ColData
deriving DecidableEq

structure Frame : Type where
  cols : List Col
deriving DecidableEq

def ColData.len : ColData → Nat
  | .numeric vs => vs.length
  | .textual vs => vs.length
  | .temporal vs => vs.length

/-- Count of null or NaN cells of one column (`df[c].isna().sum()`). -/
def ColData.missing : ColData → Nat
  | .numeric vs => vs.countP (fun v => v.isNone)
  | .textual vs => vs.countP (fun v => v.isNone)
  | .temporal vs => vs.countP (fun v => v.isNone)

def ColData.isNumeric : ColData → Bool
  | .numeric _ => true
  | _ => false

def ColData.isTextual : ColData → Bool
  | .textual _ => true
  | _ => false

def ColData.isTemporal : ColData → Bool
  | .temporal _ => true
  | _ => false

/-- pandas dtype name of a column, as rendered by `str(df[c].dtype)`. -/
def ColData.dtypeName : ColData → String
  | .numeric _ => "float64"
  | .textual _ => "object"
  | .temporal _ => "datetime64[ns]"

def Frame.nRows (f : Frame) : Nat :=
  match f.cols with
  | [] => 0
  | c :: _ => c.data.len

/-- Names of the numeric columns in original column order
(`df.select_dtypes(include=[np.number]).columns`). -/
def numericNames (f : Frame) : List String :=
  (f.cols.filter (fun c => c.data.isNumeric)).map Col.name

/-- Names of the textual columns in original column order
(`df.select_dtypes(include=["object", "category"]).columns`). -/
def textualNames (f : Frame) : List String :=
  (f.cols.filter (fun c => c.data.isTextual)).map Col.name

/-- Total count of missing cells of the frame (`df.isna().sum().sum()`). -/
def totalMissing (f : Frame) : Nat :=
  (f.cols.map (fun c => c.data.missing)).sum

/-! ## `_coerce_datetime` (eda.py lines 65 to 88)

`pd.to_datetime(col, format=fmt, errors="coerce")` maps every cell
through a format-directed parser and turns failures (and cells that were
already missing) into `NaT`; with `errors="coerce"` the call does not
raise, so the `try`/`except` of the source is vacuous in the model.  The
parsers themselves live in pandas and enter as parameters:
`fixedParse fmt cell` for the five fixed formats and `genericParse cell`
for the dateutil fallback. -/

def common_formats : List String :=
  ["%Y-%m-%d", "%m/%d/%Y", "%d-%m-%Y", "%Y/%m/%d", "%d/%m/%Y"]

/-- One column mapped through a cell parser; a missing cell stays
missing (`NaT`). -/
def parsedCol (p : String → Option Int) (vals : List (Option String)) : List (Option Int) :=
  vals.map (fun v => v.bind p)

/-- Model of `parsed.notna().mean()`: the fraction of successfully parsed cells
over the whole column length, missing cells included in the denominator.
On an empty column pandas yields NaN and every comparison with it is
false; here the convention `0 / 0 = 0` gives the same comparison
outcomes. -/
def notnaRate (l : List (Option Int)) : ℚ :=
  (l.countP (fun v => v.isSome) : ℚ) / (l.length : ℚ)

/-- The threshold test `parsed.notna().mean() > 0.9`. -/
def clearsThreshold (p : String → Option Int) (vals : List (Option String)) : Bool :=
  notnaRate (parsedCol p vals) > 9/10

/-- Datetime coercion of a single column: formats are tried in declared
order, the first one whose parse rate strictly exceeds 0.9 rewrites the
column in place; if none clears, the generic parser is adopted under the
same threshold; otherwise the column is unchanged.  Non-textual columns
are untouched (`df[c].dtype == object` guard). -/
def coerce_col (fixedParse : String → String → Option Int)
    (genericParse : String → Option Int) (c : Col) : Col :=
  match c.data with
  | ColData.textual vals =>
    match common_formats.find? (fun fmt => clearsThreshold (fixedParse fmt) vals) with
    | some fmt => { c with data := ColData.temporal (parsedCol (fixedParse fmt) vals) }
    | none =>
      if clearsThreshold genericParse vals then
        { c with data := ColData.temporal (parsedCol genericParse vals) }
      else c
  | _ => c

def coerce_datetime (fixedParse : String → String → Option Int)
    (genericParse : String → Option Int) (f : Frame) : Frame :=
  ⟨f.cols.map (coerce_col fixedParse genericParse)⟩

/-! ## Profiling statistics (`run_eda`, eda.py lines 216 to 232) -/

/-- One record of `_numeric_summary` as consumed by the narrative stage
(pandas `describe` plus skew and kurtosis; computed by pandas, hence a
parameter of the profiling model). -/
structure NumRow : Type where
  column : String
  mean : ℚ
  std : ℚ
  skew : ℚ
deriving DecidableEq

structure CorrRow : Type where
  col_x : String
  col_y : String
  abs_r : ℚ
deriving DecidableEq

/-- The association list underlying `df.isna().sum()`: column name to
missing count, in original column order. -/
def colMissPairs (f : Frame) : List (String × Nat) :=
  f.cols.map (fun c => (c.name, c.data.missing))

/-- Model of `df.isna().sum().sort_values(ascending=False).head(20).to_dict()`:
per-column missing counts, pandas descending sort, first twenty
entries.  Python dicts preserve insertion order, so the result keeps the
list order. -/
def missing_by_col (f : Frame) : List (String × Nat) :=
  (pandasSortValuesDesc (fun p => p.2) (colMissPairs f)).take 20

/-- The row-major lower-triangle scan of `_correlation_pairs`:
`for i in range(1, len(cols)): for j in range(i): append (cols[i],
cols[j], corr.iloc[i, j])` where `corr` is the absolute correlation
matrix (`num.corr().abs()`); the raw matrix entries are the parameter
`corrM`. -/
def corr_scan (names : List String) (corrM : Nat → Nat → ℚ) :
    List (String × String × ℚ) :=
  (List.range names.length).flatMap
    (fun i => (List.range i).map (fun j => (names.getD i "", names.getD j "", |corrM i j|)))

/-- The index pairs of the lower-triangle scan, in scan order. -/
def idxScan (n : Nat) : List (Nat × Nat) :=
  (List.range n).flatMap (fun i => (List.range i).map (fun j => (i, j)))

/-- Model of `_correlation_pairs(df, top_k)`: empty for fewer than two numeric
columns, otherwise the scan sorted descending by the stored magnitude
(Python stable `list.sort(key=..., reverse=True)`) and truncated to
`top_k`. -/
def correlation_pairs (corrM : Nat → Nat → ℚ) (f : Frame) (top_k : Nat) :
    List (String × String × ℚ) :=
  let names := numericNames f
  if names.length < 2 then []
  else (sortDescStable (fun p => p.2.2) (corr_scan names corrM)).take top_k

/-- Constant `EDAConfig.corr_top_k`. -/
def corr_top_k : Nat := 20

/-- The `top_correlations` entry of the stats dict: each magnitude
rounded to three decimals. -/
def top_correlations (corrM : Nat → Nat → ℚ) (f : Frame) : List CorrRow :=
  (correlation_pairs corrM f corr_top_k).map
    (fun t => ⟨t.1, t.2.1, pyRound3 t.2.2⟩)

/-- The `stats` dict built by `run_eda` (`max_cols = 100`). -/
structure Stats : Type where
  n_rows : Nat
  n_cols : Nat
  columns : List String
  dtypes : List (String × String)
  missing_by_col : List (String × Nat)
  numeric_summary : List NumRow
  top_correlations : List CorrRow
deriving DecidableEq

def edaStats (corrM : Nat → Nat → ℚ) (describeF : Frame → List NumRow)
    (f : Frame) : Stats :=
  { n_rows := f.nRows
    n_cols := f.cols.length
    columns := (f.cols.map Col.name).take 100
    dtypes := (f.cols.take 100).map (fun c => (c.name, c.data.dtypeName))
    missing_by_col := missing_by_col f
    numeric_summary := (describeF f).take 50
    top_correlations := top_correlations corrM f }

/-! ## Chart emission (`run_eda`, eda.py lines 234 to 256)

Each chart renderer does file input and output, so it enters as an
`Except`-valued parameter (`rMiss`, `rCorr` for the two heatmaps,
`rHist`, `rBar` per column).  The sequencing in the source has no
`try`/`except` around any chart call: the monadic bind below propagates
the first failure exactly as the Python exceptions do.  The skip
conditions (`_missingness_heatmap` returning `None` on zero missing
cells, `_corr_heatmap` returning `None` below two numeric columns) are
computed from the frame before any rendering. -/

/-- Columns selected by `_top_categories(df, max_cols=4)`: the first
four textual columns in order (only the selected column names feed the
bar-chart loop; the value counts are internal to the renderer). -/
def top_categories_cols (f : Frame) : List String :=
  (textualNames f).take 4

/-- Constant `EDAConfig.max_numeric_hists`. -/
def max_numeric_hists : Nat := 4

/-- One chart-emission loop (`for col in ...: p = render(col);
charts[title(col)] = p`): each rendered column contributes a titled
path, and a rendering failure aborts the loop and propagates, exactly
like the uncaught Python exception. -/
def renderEach (title : String → String) (rend : String → Except String String) :
    List String → Except String (List (String × String))
  | [] => Except.ok []
  | c :: cs =>
    match rend c with
    | Except.error e => Except.error e
    | Except.ok p =>
      match renderEach title rend cs with
      | Except.error e => Except.error e
      | Except.ok ps => Except.ok ((title c, p) :: ps)

/-- The chart phase of `run_eda`: title to file-path pairs in insertion
order, or the first rendering failure. -/
def run_eda_charts (rMiss rCorr : Except String String)
    (rHist rBar : String → Except String String) (f : Frame) :
    Except String (List (String × String)) := do
  let missChart : Option String ←
    if totalMissing f = 0 then pure none else Except.map some rMiss
  let corrChart : Option String ←
    if (numericNames f).length < 2 then pure none else Except.map some rCorr
  let num_cols := ((numericNames f).take 100).take max_numeric_hists
  let histCharts ← renderEach (fun c => "Distribution — " ++ c) rHist num_cols
  let barCharts ← renderEach (fun c => "Top categories — " ++ c) rBar
    (top_categories_cols f)
  pure ((match missChart with | some p => [("Missingness", p)] | none => []) ++
        (match corrChart with | some p => [("Correlation heatmap", p)] | none => []) ++
        histCharts ++ barCharts)

/-- Output of `run_eda`: the stats record plus the chart mapping. -/
structure EdaOut : Type where
  stats : Stats
  charts : List (String × String)
deriving DecidableEq

/-- Model of `run_eda`: the stats record is pure; the chart phase can fail, and
a chart failure propagates out of the whole call (no surrounding
`try`/`except` in the source), so no partial output is returned. -/
def run_eda (corrM : Nat → Nat → ℚ) (describeF : Frame → List NumRow)
    (rMiss rCorr : Except String String)
    (rHist rBar : String → Except String String) (f : Frame) :
    Except String EdaOut := do
  let charts ← run_eda_charts rMiss rCorr rHist rBar f
  pure ⟨edaStats corrM describeF f, charts⟩

/-! ## Narrative synthesis (`narrative.py`) -/

structure Narrative : Type where
  executive_summary : String
  data_overview : String
  key_drivers : List String
  anomalies : List String
  recommendations : List String
deriving DecidableEq

/-- The missingness clause of the executive summary, built from the
first five entries of `missing_by_col`. -/
def missClause (top_missing : List (String × Nat)) : String :=
  "Missing values concentrated in: " ++
    joinSep ", " (top_missing.map (fun p => p.1 ++ " (" ++ toString p.2 ++ ")")) ++ "."

/-- The sentence emitted per correlation pair in `key_drivers`. -/
def driverSentence (c : CorrRow) : String :=
  c.col_x ++ " and " ++ c.col_y ++ " move together (|r|=" ++ showRat c.abs_r ++ ")."

def driversFallback : String :=
  "No strong numeric drivers detected (insufficient numeric columns)."

def missBiasCaveat : String :=
  "High missingness in key columns may bias results; consider imputation."

def wideCaveat : String :=
  "Wide dataset; feature selection or dimensionality reduction may help."

def noIssuesFallback : String :=
  "No major data quality issues detected at a glance."

/-- The executive-summary lines (`exec_lines` of the source). -/
def execLines (st : Stats) : List String :=
  ["Dataset with " ++ fmtThousands st.n_rows ++ " rows and " ++
      toString st.n_cols ++ " columns."] ++
  (if (st.missing_by_col.take 5).isEmpty then []
   else [missClause (st.missing_by_col.take 5)]) ++
  (match st.top_correlations with
   | [] => []
   | c0 :: _ =>
     ["Strongest numeric relationship: " ++ c0.col_x ++ " ~ " ++ c0.col_y ++
        " (|r|=" ++ showRat c0.abs_r ++ ")."])

/-- Model of `generate_narrative(eda)`; the source reads `eda["stats"]`, modelled
here by passing the stats record of an `EdaOut`. -/
def generate_narrative (eda : EdaOut) : Narrative :=
  let st := eda.stats
  let top_missing := st.missing_by_col.take 5
  let overview_lines : List String :=
    (st.numeric_summary.take 3).map
      (fun row => row.column ++ ": mean=" ++ showRat row.mean ++ ", std=" ++
        showRat row.std ++ ", skew=" ++ showRat row.skew)
  let overview_lines := if st.numeric_summary.isEmpty then [] else overview_lines
  let drivers := (st.top_correlations.take 3).map driverSentence
  let drivers := if drivers.isEmpty then [driversFallback] else drivers
  let anomalies :=
    (if top_missing.isEmpty then [] else [missBiasCaveat]) ++
    (if 60 < st.n_cols then [wideCaveat] else [])
  let anomalies := if anomalies.isEmpty then [noIssuesFallback] else anomalies
  { executive_summary := joinSep " " (execLines st)
    data_overview :=
      if overview_lines.isEmpty then "Basic overview available."
      else joinSep "\n" overview_lines
    key_drivers := drivers
    anomalies := anomalies
    recommendations :=
      ["Prioritize data cleaning for columns with highest missingness.",
       "Validate correlations with domain knowledge and downstream modeling.",
       "Standardize numeric features before modeling (z-score)."] }

/-! ## Pipeline orchestrator (`pipeline.py`) -/

/-- A raised Python exception as observed by the orchestrator:
`str(e)` and `traceback.format_exc()`. -/
structure PyErr : Type where
  msg : String
  tb : String
deriving DecidableEq

structure StepLog : Type where
  name : String
  status : String
  started_at : Nat
  ended_at : Option Nat
  details : Option String
deriving DecidableEq, Inhabited

/-- Model of `StepLog.finish(status, details)`; the guard `if details:` keeps the
old value both for `None` and for an empty string (Python truthiness). -/
def StepLog.finish (s : StepLog) (status : String) (t : Nat)
    (details : Option String) : StepLog :=
  { s with
    status := status
    ended_at := some t
    details :=
      match details with
      | some d => if d = "" then s.details else some d
      | none => s.details }

structure PipelineError : Type where
  message : String
  traceback : String
deriving DecidableEq

/-- The returned dict: `pptx_path` is `None` on failure, the `error`
key is present only on failure. -/
structure PipelineResult : Type where
  pptx_path : Option String
  logs : List StepLog
  error : Option PipelineError
deriving DecidableEq

/-- The `except` block: close out the last step as an error when it is
still running (`if steps and steps[-1].status == "running"`). -/
def closeOutError (steps : List StepLog) (t : Nat) (msg : String) : List StepLog :=
  match steps.getLast? with
  | some s =>
    if s.status = "running" then steps.dropLast ++ [s.finish "error" t (some msg)]
    else steps
  | none => steps

def stageNames : List String :=
  ["prepare-output-dir", "run-eda", "generate-narrative", "build-pptx"]

/-- Model of `run_full_pipeline` with an instrumentation trace: the second
component lists every intermediate state of the step list, one snapshot
after each append or finish.  The four stage bodies (mkdir, `run_eda`,
`generate_narrative`, `build_presentation`) are `Except`-valued
parameters; `eda_rows` and `eda_cols` project the row and column counts
used in the run-eda detail string.  Timestamps are the values of an
abstract monotone clock. -/
def run_full_pipeline_traced {α β : Type} (storage_root : String)
    (prep : Except PyErr Unit)
    (eda_stage : Except PyErr α) (eda_rows eda_cols : α → Nat)
    (narrative_stage : α → Except PyErr β)
    (pptx_stage : α → β → Except PyErr String) :
    PipelineResult × List (List StepLog) :=
  let reports_dir := storage_root ++ "/reports"
  let s0 : StepLog := ⟨"prepare-output-dir", "running", 0, none, none⟩
  match prep with
  | Except.error e =>
    let logs := closeOutError [s0] 1 e.msg
    (⟨none, logs, some ⟨e.msg, strLastN e.tb 3000⟩⟩, [[s0], logs])
  | Except.ok _ =>
    let s0f := s0.finish "ok" 1 (some ("reports_dir=" ++ reports_dir))
    let s1 : StepLog := ⟨"run-eda", "running", 2, none, none⟩
    match eda_stage with
    | Except.error e =>
      let logs := closeOutError [s0f, s1] 3 e.msg
      (⟨none, logs, some ⟨e.msg, strLastN e.tb 3000⟩⟩,
        [[s0], [s0f], [s0f, s1], logs])
    | Except.ok a =>
      let s1f := s1.finish "ok" 3
        (some ("rows=" ++ toString (eda_rows a) ++ " cols=" ++ toString (eda_cols a)))
      let s2 : StepLog := ⟨"generate-narrative", "running", 4, none, none⟩
      match narrative_stage a with
      | Except.error e =>
        let logs := closeOutError [s0f, s1f, s2] 5 e.msg
        (⟨none, logs, some ⟨e.msg, strLastN e.tb 3000⟩⟩,
          [[s0], [s0f], [s0f, s1], [s0f, s1f], [s0f, s1f, s2], logs])
      | Except.ok b =>
        let s2f := s2.finish "ok" 5 (some "narrative-ready")
        let s3 : StepLog := ⟨"build-pptx", "running", 6, none, none⟩
        match pptx_stage a b with
        | Except.error e =>
          let logs := closeOutError [s0f, s1f, s2f, s3] 7 e.msg
          (⟨none, logs, some ⟨e.msg, strLastN e.tb 3000⟩⟩,
            [[s0], [s0f], [s0f, s1], [s0f, s1f], [s0f, s1f, s2],
             [s0f, s1f, s2f], [s0f, s1f, s2f, s3], logs])
        | Except.ok p =>
          let s3f := s3.finish "ok" 7 (some ("pptx=" ++ p))
          (⟨some p, [s0f, s1f, s2f, s3f], none⟩,
            [[s0], [s0f], [s0f, s1], [s0f, s1f], [s0f, s1f, s2],
             [s0f, s1f, s2f], [s0f, s1f, s2f, s3], [s0f, s1f, s2f, s3f]])

def run_full_pipeline {α β : Type} (storage_root : String)
    (prep : Except PyErr Unit)
    (eda_stage : Except PyErr α) (eda_rows eda_cols : α → Nat)
    (narrative_stage : α → Except PyErr β)
    (pptx_stage : α → β → Except PyErr String) : PipelineResult :=
  (run_full_pipeline_traced storage_root prep eda_stage eda_rows eda_cols
    narrative_stage pptx_stage).1

def pipeline_trace {α β : Type} (storage_root : String)
    (prep : Except PyErr Unit)
    (eda_stage : Except PyErr α) (eda_rows eda_cols : α → Nat)
    (narrative_stage : α → Except PyErr β)
    (pptx_stage : α → β → Except PyErr String) : List (List StepLog) :=
  (run_full_pipeline_traced storage_root prep eda_stage eda_rows eda_cols
    narrative_stage pptx_stage).2

/-- Count of entries currently marked running. -/
def countRunning (steps : List StepLog) : Nat :=
  steps.countP (fun s => s.status == "running")

/-! ## Report download endpoint (`reports.py`) -/

/-- Splitting a path string on slashes (every group, including empty
ones, like `str.split("/")`). -/
def splitSlashL (l : List Char) : List (List Char) :=
  l.foldr
    (fun ch acc =>
      if ch = '/' then [] :: acc
      else
        match acc with
        | [] => [[ch]]
        | g :: gs => (ch :: g) :: gs)
    [[]]

def splitSlash (s : String) : List String :=
  (splitSlashL s.data).map String.mk

/-- Model of `str.startswith` on the character lists (structural, equivalent to
`String.startsWith`). -/
def strStartsWith (s pre : String) : Bool :=
  pre.data.isPrefixOf s.data

/-- ASCII lowercasing of one character (`str.lower`; the filenames at
this boundary are ASCII). -/
def lowerChar (c : Char) : Char :=
  if 'A' ≤ c ∧ c ≤ 'Z' then Char.ofNat (c.toNat + 32) else c

/-- Model of `str.lower` on the character list. -/
def strLower (s : String) : String :=
  String.mk (s.data.map lowerChar)

/-- Model of `pathlib` joining: `Path(storage) / filename` keeps an absolute
filename as is, otherwise concatenates with a slash. -/
def pyJoin (storage filename : String) : String :=
  if strStartsWith filename "/" then filename else storage ++ "/" ++ filename

/-- Model of `Path(p).name`: the last meaningful component (empty and single-dot
components never become the name). -/
def pyNameOf (p : String) : String :=
  (((splitSlash p).filter (fun c => ¬ (c = "" ∨ c = "."))).getLastD "")

/-- Model of `Path(p).suffix` of a final component: the part from the last dot,
provided that dot is neither the first nor the last character. -/
def pySuffixOf (nm : String) : String :=
  let ds := nm.data
  match ds.reverse.indexOf? '.' with
  | none => ""
  | some r =>
    let i := ds.length - 1 - r
    if 0 < i ∧ i < ds.length - 1 then String.mk (ds.drop i) else ""

/-- Model of `download_report(filename)`: the file is served (as a
`FileResponse` on the joined path, here `some path`) unless it does not
exist, its name does not start with `report_`, or its lowercased suffix
is not `.pptx` (each of those yields a 404, here `none`).  The
filesystem is the parameter `fs`. -/
def download_report (fs : String → Bool) (storage filename : String) :
    Option String :=
  let path := pyJoin storage filename
  if ¬ (fs path = true) ∨ ¬ (strStartsWith (pyNameOf path) "report_" = true) ∨
      ¬ (strLower (pySuffixOf (pyNameOf path)) = ".pptx") then none
  else some path

/-- Normalisation of slash-separated segments: empty and single-dot
segments vanish, a double-dot pops the previous segment. -/
def normSegs (segs : List String) : List String :=
  segs.foldl
    (fun acc seg =>
      if seg = "" ∨ seg = "." then acc
      else if seg = ".." then acc.dropLast
      else acc ++ [seg])
    []

/-- Formalisation of the claim predicate "the filename resolves to a
file inside the designated output directory": after normalisation the
joined path still lies under the storage directory. -/
def resolvesInsideDir (storage filename : String) : Bool :=
  (normSegs (splitSlash storage)).isPrefixOf
    (normSegs (splitSlash (pyJoin storage filename)))

/-- Shape of a pipeline result after a failure of the stage with index
`k` (zero-based) raising message `msg` with traceback `tb`: no deck
path, a populated error with the trace capped at 3000 characters, log
entries exactly for the stages up to and including the failing one, the
prior ones ok, the failing one marked error carrying the message as
detail whenever the message is non-empty. -/
def errResultShape (r : PipelineResult) (k : Nat) (msg tb : String) : Prop :=
  r.pptx_path = none ∧
  r.error = some ⟨msg, strLastN tb 3000⟩ ∧
  (strLastN tb 3000).length ≤ 3000 ∧
  r.logs.map StepLog.name = stageNames.take (k + 1) ∧
  r.logs.map StepLog.status = List.replicate k "ok" ++ ["error"] ∧
  (r.logs.getLast?).map StepLog.details = some (if msg = "" then none else some msg)

/-- Shape of a fully successful pipeline result. -/
def okResultShape (r : PipelineResult) (p : String) : Prop :=
  r.error = none ∧
  r.pptx_path = some p ∧
  r.logs.map StepLog.name = stageNames ∧
  r.logs.map StepLog.status = List.replicate 4 "ok"

/-! ## Definitions following the wording of the specification

These are not translations of the source; they render the exact wording
of the claims that the source is compared against. -/

/-- The missingness ranking as the specification words it: descending by
count with ties broken by the original column order (a stable descending
sort), truncated to twenty. -/
def missing_by_col_spec (f : Frame) : List (String × Nat) :=
  (sortDescStable (fun p => p.2) (colMissPairs f)).take 20

/-- The coercion threshold as the specification words it: the fraction
of successfully parsed cells over the non-missing cells only. -/
def nonMissingParseRate (p : String → Option Int) (vals : List (Option String)) : ℚ :=
  (vals.countP (fun v => (v.bind p).isSome) : ℚ) /
    (vals.countP (fun v => v.isSome) : ℚ)

/-- The full content of claim C4 about the correlation ranking of a
frame: emptiness below two numeric columns, the ranking as the stable
descending sort of the lower-triangle scan truncated to twenty, no
self-pairs, no duplicate unordered pairs, coverage of every unordered
pair, descending order, tie order equal to the scan order (the filter
over every tie class is unchanged by the sort), the length bound, and
rounding of each reported magnitude to three decimals. -/
def corrRankingSpec (f : Frame) (corrM : Nat → Nat → ℚ) : Prop :=
  ((numericNames f).length < 2 → correlation_pairs corrM f corr_top_k = []) ∧
  (2 ≤ (numericNames f).length →
    correlation_pairs corrM f corr_top_k =
      (sortDescStable (fun p => p.2.2) (corr_scan (numericNames f) corrM)).take 20) ∧
  (∀ x ∈ corr_scan (numericNames f) corrM, x.1 ≠ x.2.1) ∧
  List.Pairwise
    (fun a b => ¬ (a.1 = b.1 ∧ a.2.1 = b.2.1) ∧ ¬ (a.1 = b.2.1 ∧ a.2.1 = b.1))
    (corr_scan (numericNames f) corrM) ∧
  (∀ i j, j < i → i < (numericNames f).length →
    ((numericNames f).getD i "", (numericNames f).getD j "", |corrM i j|) ∈
      corr_scan (numericNames f) corrM) ∧
  (sortDescStable (fun p => p.2.2) (corr_scan (numericNames f) corrM)).Perm
    (corr_scan (numericNames f) corrM) ∧
  List.Pairwise (fun a b => b.2.2 ≤ a.2.2) (correlation_pairs corrM f corr_top_k) ∧
  (∀ q : ℚ,
    (sortDescStable (fun p => p.2.2) (corr_scan (numericNames f) corrM)).filter
        (fun a => a.2.2 == q) =
      (corr_scan (numericNames f) corrM).filter (fun a => a.2.2 == q)) ∧
  (correlation_pairs corrM f corr_top_k).length =
    min 20 (corr_scan (numericNames f) corrM).length ∧
  top_correlations corrM f =
    (correlation_pairs corrM f corr_top_k).map (fun t => ⟨t.1, t.2.1, pyRound3 t.2.2⟩)

/-- The full content of claim C6 about the missingness ranking:
descending count order, a permutation of the per-column counts, ties
broken by the original column order (the filter over every tie class is
unchanged by the sort), truncation to twenty, every reported entry
being a real column with its real count, and agreement with the
stable-descending ranking the specification words describe. -/
def missingRankingSpec (f : Frame) : Prop :=
  List.Pairwise (fun a b => b.2 ≤ a.2) (missing_by_col f) ∧
  (pandasSortValuesDesc (fun p => p.2) (colMissPairs f)).Perm (colMissPairs f) ∧
  (∀ k : Nat,
    (pandasSortValuesDesc (fun p => p.2) (colMissPairs f)).filter (fun a => a.2 == k) =
      (colMissPairs f).filter (fun a => a.2 == k)) ∧
  (missing_by_col f).length = min 20 f.cols.length ∧
  (∀ x ∈ missing_by_col f, x ∈ colMissPairs f) ∧
  missing_by_col f = missing_by_col_spec f

/-! ## Concrete fixtures for witnesses and counterexamples -/

/-- A parser accepting exactly the cell text `d` under the first fixed
format. -/
def parseOnlyFirstFmt : String → String → Option Int :=
  fun fmt s => if fmt = "%Y-%m-%d" ∧ s = "d" then some 0 else none

def parseNothing : String → Option Int := fun _ => none

/-- A column of 100 cells, 95 parseable, 5 garbage, none missing. -/
def colVals95 : List (Option String) :=
  List.replicate 95 (some "d") ++ List.replicate 5 (some "x")

/-- A column of 100 cells, 85 parseable, 15 garbage, none missing. -/
def colVals85 : List (Option String) :=
  List.replicate 85 (some "d") ++ List.replicate 15 (some "x")

/-- A column of 10 cells: 6 parseable and non-missing, 4 missing.  All non-missing
cells parse (rate 1 over non-missing cells) but only 6 of 10 over the
whole column. -/
def colValsMissing : List (Option String) :=
  List.replicate 6 (some "d") ++ List.replicate 4 none

def colC3 : Col := ⟨"when", ColData.textual colValsMissing⟩

/-- Frame with one numeric column, used for the chart-failure run. -/
def frameC2 : Frame := ⟨[⟨"x", ColData.numeric [some 1]⟩]⟩

/-- Frame with three numeric columns A, B, C. -/
def frameC4 : Frame :=
  ⟨[⟨"A", ColData.numeric [some 1]⟩, ⟨"B", ColData.numeric [some 2]⟩,
    ⟨"C", ColData.numeric [some 3]⟩]⟩

/-- Absolute-correlation matrix of the specification example: the pair
B, A has magnitude 0.9 and both pairs with C have magnitude 0.5. -/
def corrC4 : Nat → Nat → ℚ :=
  fun i j => if (i = 1 ∧ j = 0) ∨ (i = 0 ∧ j = 1) then 9/10 else 1/2

/-- Frame with two columns that have equal missing counts. -/
def frameC6 : Frame :=
  ⟨[⟨"a", ColData.numeric [none]⟩, ⟨"b", ColData.numeric [none]⟩]⟩

/-- Frame with thirty columns of pairwise distinct missing counts
(column `c_i` has `i` missing cells). -/
def frameC6b : Frame :=
  ⟨(List.range 30).map
    (fun i => ⟨"c" ++ toString i, ColData.numeric (List.replicate i none)⟩)⟩

def describeNone : Frame → List NumRow := fun _ => []

def corrZero : Nat → Nat → ℚ := fun _ _ => 0

/-- Renderers for the chart-failure counterexample: the histogram fails. -/
def rendOk : Except String String := Except.ok "p.png"

def rendHistBoom : String → Except String String := fun _ => Except.error "boom"

def rendBarOk : String → Except String String := fun c => Except.ok ("bar_" ++ c)

def rendHistOk : String → Except String String := fun c => Except.ok ("hist_" ++ c)

/-- Filesystem of the traversal counterexample: exactly one file, which
lies outside the storage directory but matches the naming convention. -/
def fsC9 : String → Bool := fun p => p == "storage/../report_evil.pptx"

/-- Filesystem holding one well-named report inside the storage
directory. -/
def fsC9ok : String → Bool := fun p => p == "storage/report_a.pptx"

/-- A profile record used to instantiate narrative claims. -/
def statsC7 : Stats :=
  { n_rows := 4, n_cols := 2, columns := ["A", "B"],
    dtypes := [("A", "float64"), ("B", "float64")],
    missing_by_col := [("A", 1), ("B", 0)],
    numeric_summary := [],
    top_correlations := [⟨"A", "B", 9/10⟩] }

def statsC7empty : Stats :=
  { n_rows := 4, n_cols := 2, columns := ["A", "B"],
    dtypes := [("A", "float64"), ("B", "float64")],
    missing_by_col := [],
    numeric_summary := [],
    top_correlations := [] }

/-! # Theorems -/

/-! ## General helper lemmas -/

theorem strLastN_length_le (s : String) (n : Nat) : (strLastN s n).length ≤ n := by
  simp only [strLastN, String.length]
  simp only [List.length_drop]
  omega

/-- Stability of insertion sort: a filter keeping only elements that
are mutually related is untouched by the sort. -/
theorem filter_insertionSort {α : Type} (r : α → α → Prop) [DecidableRel r]
    [IsTotal α r] [IsTrans α r] (p : α → Bool)
    (hp : ∀ a b, p a = true → p b = true → r a b) (l : List α) :
    (List.insertionSort r l).filter p = l.filter p := by
  have h1 : List.Pairwise r (l.filter p) :=
    List.pairwise_of_forall_mem_list
      (fun a ha b hb => hp a b (List.of_mem_filter ha) (List.of_mem_filter hb))
  have h2 : (l.filter p).Sublist (List.insertionSort r l) :=
    List.sublist_insertionSort h1 (List.filter_sublist l)
  have h3 : (l.filter p).filter p = l.filter p := by
    simp [List.filter_filter]
  have h4 : (l.filter p).Sublist ((List.insertionSort r l).filter p) := h3 ▸ h2.filter p
  have h5 : ((List.insertionSort r l).filter p).Perm (l.filter p) :=
    (List.perm_insertionSort r l).filter p
  exact (h4.eq_of_length h5.length_eq.symm).symm

/-- Membership in the index scan characterised by the bounds. -/
theorem mem_idxScan {n : Nat} {x : Nat × Nat} :
    x ∈ idxScan n ↔ x.2 < x.1 ∧ x.1 < n := by
  rcases x with ⟨i, j⟩
  simp only [idxScan, List.mem_flatMap, List.mem_map, List.mem_range]
  constructor
  · rintro ⟨i', hi', j', hj', heq⟩
    obtain ⟨rfl, rfl⟩ : i' = i ∧ j' = j := by
      exact ⟨congrArg Prod.fst heq, congrArg Prod.snd heq⟩
    exact ⟨hj', hi'⟩
  · rintro ⟨hji, hin⟩
    exact ⟨i, hin, j, hji, rfl⟩

/-- The index scan enumerates each pair at most once. -/
theorem nodup_idxScan (n : Nat) : (idxScan n).Nodup := by
  rw [idxScan, List.nodup_flatMap]
  refine ⟨fun i _ => ?_, ?_⟩
  · exact (List.nodup_range i).map (fun a b h => congrArg Prod.snd h)
  · refine (List.nodup_range n).imp ?_
    intro i i' hne x hx hx'
    obtain ⟨j, _, rfl⟩ := List.mem_map.mp hx
    obtain ⟨j', _, h⟩ := List.mem_map.mp hx'
    exact hne (congrArg Prod.fst h).symm

/-- The correlation scan is the index scan mapped through name lookup
and the absolute matrix entry. -/
theorem corr_scan_eq_map (names : List String) (corrM : Nat → Nat → ℚ) :
    corr_scan names corrM =
      (idxScan names.length).map
        (fun p => (names.getD p.1 "", names.getD p.2 "", |corrM p.1 p.2|)) := by
  simp [corr_scan, idxScan, List.map_flatMap, List.map_map, Function.comp_def]

/-! ## Claim C8: running-step invariant of the orchestrator -/

/-- Claim C8: throughout every run of run_full_pipeline, at most one
step-log entry has status running at any time, and in the returned
result (success or failure) no entry has status running. -/
theorem c8_running_invariant {α β : Type} (sr : String) (prep : Except PyErr Unit)
    (eda : Except PyErr α) (rows cols : α → Nat) (narr : α → Except PyErr β)
    (pptx : α → β → Except PyErr String) :
    (∀ snap ∈ pipeline_trace sr prep eda rows cols narr pptx, countRunning snap ≤ 1) ∧
    countRunning (run_full_pipeline sr prep eda rows cols narr pptx).logs = 0 := by
  rcases prep with e | u
  · simp [pipeline_trace, run_full_pipeline, run_full_pipeline_traced,
      closeOutError, StepLog.finish, countRunning, List.getLast?]
  · rcases eda with e | a
    · simp [pipeline_trace, run_full_pipeline, run_full_pipeline_traced,
        closeOutError, StepLog.finish, countRunning, List.getLast?]
    · rcases hn : narr a with e | b
      · simp [pipeline_trace, run_full_pipeline, run_full_pipeline_traced,
          closeOutError, StepLog.finish, countRunning, List.getLast?, hn]
      · rcases hp : pptx a b with e | p <;>
          simp [pipeline_trace, run_full_pipeline, run_full_pipeline_traced,
            closeOutError, StepLog.finish, countRunning, List.getLast?, hn, hp]

/-- Witness for C8 at a concrete run. -/
theorem c8_running_invariant_witness :
    ([(⟨"prepare-output-dir", "running", 0, none, none⟩ : StepLog)] ∈
        pipeline_trace "s" (Except.ok ()) (Except.ok ()) (fun _ => 5) (fun _ => 2)
          (fun _ => Except.ok ()) (fun _ _ => Except.ok "report.pptx") ∧
      countRunning [(⟨"prepare-output-dir", "running", 0, none, none⟩ : StepLog)] ≤ 1) ∧
    countRunning (run_full_pipeline "s" (Except.ok ()) (Except.ok ()) (fun _ => 5)
      (fun _ => 2) (fun _ => Except.ok ()) (fun _ _ => Except.ok "report.pptx")).logs = 0 := by
  refine ⟨⟨by decide, ?_⟩, ?_⟩
  · exact (c8_running_invariant "s" (Except.ok ()) (Except.ok ()) (fun _ => 5)
      (fun _ => 2) (fun _ => Except.ok ()) (fun _ _ => Except.ok "report.pptx")).1 _ (by decide)
  · exact (c8_running_invariant "s" (Except.ok ()) (Except.ok ()) (fun _ => 5)
      (fun _ => 2) (fun _ => Except.ok ()) (fun _ _ => Except.ok "report.pptx")).2

/-! ## Claim C1: failure handling of run_full_pipeline -/

/-- Claim C1 (amended): on a stage failure the result carries no deck
path, the error message with the trace capped at its last 3000
characters, log entries only up to the failing stage with the failing
one marked error, and the message as that detail whenever the message
is non-empty (an empty message leaves the detail absent); on a fully
successful run the error is absent and the deck path set. -/
theorem c1_error_surfacing {α β : Type} (sr : String) (prep : Except PyErr Unit)
    (eda : Except PyErr α) (rows cols : α → Nat) (narr : α → Except PyErr β)
    (pptx : α → β → Except PyErr String) :
    (∀ e, prep = Except.error e →
      errResultShape (run_full_pipeline sr prep eda rows cols narr pptx) 0 e.msg e.tb) ∧
    (∀ e, prep = Except.ok () → eda = Except.error e →
      errResultShape (run_full_pipeline sr prep eda rows cols narr pptx) 1 e.msg e.tb) ∧
    (∀ e a, prep = Except.ok () → eda = Except.ok a → narr a = Except.error e →
      errResultShape (run_full_pipeline sr prep eda rows cols narr pptx) 2 e.msg e.tb) ∧
    (∀ e a b, prep = Except.ok () → eda = Except.ok a → narr a = Except.ok b →
      pptx a b = Except.error e →
      errResultShape (run_full_pipeline sr prep eda rows cols narr pptx) 3 e.msg e.tb) ∧
    (∀ a b p, prep = Except.ok () → eda = Except.ok a → narr a = Except.ok b →
      pptx a b = Except.ok p →
      okResultShape (run_full_pipeline sr prep eda rows cols narr pptx) p) := by
  refine ⟨?_, ?_, ?_, ?_, ?_⟩
  · rintro e rfl
    refine ⟨?_, ?_, strLastN_length_le _ _, ?_, ?_, ?_⟩ <;>
      simp [run_full_pipeline, run_full_pipeline_traced, closeOutError,
        StepLog.finish, stageNames, List.getLast?]
  · rintro e rfl rfl
    refine ⟨?_, ?_, strLastN_length_le _ _, ?_, ?_, ?_⟩ <;>
      simp [run_full_pipeline, run_full_pipeline_traced, closeOutError,
        StepLog.finish, stageNames, List.getLast?]
  · rintro e a rfl rfl hn
    refine ⟨?_, ?_, strLastN_length_le _ _, ?_, ?_, ?_⟩ <;>
      simp [run_full_pipeline, run_full_pipeline_traced, closeOutError,
        StepLog.finish, stageNames, List.getLast?, hn]
  · rintro e a b rfl rfl hn hp
    refine ⟨?_, ?_, strLastN_length_le _ _, ?_, ?_, ?_⟩ <;>
      simp [run_full_pipeline, run_full_pipeline_traced, closeOutError,
        StepLog.finish, stageNames, List.getLast?, hn, hp]
  · rintro a b p rfl rfl hn hp
    refine ⟨?_, ?_, ?_, ?_⟩ <;>
      simp [run_full_pipeline, run_full_pipeline_traced, okResultShape,
        StepLog.finish, stageNames, hn, hp]

/-- Witness for C1: a concrete run failing at the run-eda stage with a
non-empty message. -/
theorem c1_error_surfacing_witness :
    errResultShape
      (run_full_pipeline "s" (Except.ok ()) (Except.error ⟨"eda boom", "TRACE"⟩)
        (fun _ : Unit => 5) (fun _ => 2) (fun _ => Except.ok ())
        (fun _ _ => Except.ok "report.pptx")) 1 "eda boom" "TRACE" :=
  (c1_error_surfacing "s" (Except.ok ()) (Except.error ⟨"eda boom", "TRACE"⟩)
    (fun _ : Unit => 5) (fun _ => 2) (fun _ => Except.ok ())
    (fun _ _ => Except.ok "report.pptx")).2.1 ⟨"eda boom", "TRACE"⟩ rfl rfl

/-- Counterexample to C1 as stated: an exception with an empty message
leaves the failing step with an absent detail, not with the message as
its detail (`if details:` drops empty strings). -/
theorem c1_empty_message_counterexample :
    (run_full_pipeline "s" (Except.error ⟨"", "TB"⟩) (Except.ok ())
        (fun _ : Unit => 5) (fun _ => 2) (fun _ => Except.ok (() : Unit))
        (fun _ _ => Except.ok "report.pptx")).logs.map StepLog.details =
      [(none : Option String)] ∧
    (run_full_pipeline "s" (Except.error ⟨"", "TB"⟩) (Except.ok ())
        (fun _ : Unit => 5) (fun _ => 2) (fun _ => Except.ok (() : Unit))
        (fun _ _ => Except.ok "report.pptx")).logs.map StepLog.status = ["error"] ∧
    (run_full_pipeline "s" (Except.error ⟨"", "TB"⟩) (Except.ok ())
        (fun _ : Unit => 5) (fun _ => 2) (fun _ => Except.ok (() : Unit))
        (fun _ _ => Except.ok "report.pptx")).error = some ⟨"", "TB"⟩ ∧
    [(none : Option String)] ≠ [some ""] := by
  refine ⟨by decide, by decide, ?_, by decide⟩
  decide

/-! ## Claim C5: render-stage failure -/

/-- Claim C5 (amended): when the render stage raises and all earlier
stages succeed, the result has the error set, the deck path absent, and
a step log of exactly four entries: the three prior stages ok and the
render stage marked error; nothing appears after the failing entry. -/
theorem c5_render_failure {α β : Type} (sr : String) (prep : Except PyErr Unit)
    (eda : Except PyErr α) (rows cols : α → Nat) (narr : α → Except PyErr β)
    (pptx : α → β → Except PyErr String) (a : α) (b : β) (e : PyErr)
    (h1 : prep = Except.ok ()) (h2 : eda = Except.ok a)
    (h3 : narr a = Except.ok b) (h4 : pptx a b = Except.error e) :
    errResultShape (run_full_pipeline sr prep eda rows cols narr pptx) 3 e.msg e.tb ∧
    (run_full_pipeline sr prep eda rows cols narr pptx).logs.length = 4 := by
  refine ⟨(c1_error_surfacing sr prep eda rows cols narr pptx).2.2.2.1 e a b h1 h2 h3 h4, ?_⟩
  subst h1; subst h2
  simp [run_full_pipeline, run_full_pipeline_traced, closeOutError,
    StepLog.finish, List.getLast?, h3, h4]

/-- Witness for C5 at a concrete failing render. -/
theorem c5_render_failure_witness :
    errResultShape
      (run_full_pipeline "s" (Except.ok ()) (Except.ok ()) (fun _ : Unit => 5)
        (fun _ => 2) (fun _ => Except.ok (() : Unit))
        (fun _ _ => Except.error ⟨"render boom", "TRACE"⟩)) 3 "render boom" "TRACE" ∧
    (run_full_pipeline "s" (Except.ok ()) (Except.ok ()) (fun _ : Unit => 5)
      (fun _ => 2) (fun _ => Except.ok (() : Unit))
      (fun _ _ => Except.error ⟨"render boom", "TRACE"⟩)).logs.length = 4 :=
  c5_render_failure "s" (Except.ok ()) (Except.ok ()) (fun _ => 5) (fun _ => 2)
    (fun _ => Except.ok ()) (fun _ _ => Except.error ⟨"render boom", "TRACE"⟩)
    () () ⟨"render boom", "TRACE"⟩ rfl rfl rfl rfl

/-- Counterexample to C5 as stated: a failing render after three
successful stages leaves four log entries, not three. -/
theorem c5_three_entries_counterexample :
    (run_full_pipeline "s" (Except.ok ()) (Except.ok ()) (fun _ : Unit => 5)
        (fun _ => 2) (fun _ => Except.ok (() : Unit))
        (fun _ _ => Except.error ⟨"render boom", "TRACE"⟩)).logs.map StepLog.status =
      ["ok", "ok", "ok", "error"] ∧
    (run_full_pipeline "s" (Except.ok ()) (Except.ok ()) (fun _ : Unit => 5)
        (fun _ => 2) (fun _ => Except.ok (() : Unit))
        (fun _ _ => Except.error ⟨"render boom", "TRACE"⟩)).logs.length = 4 ∧
    (4 : Nat) ≠ 3 := by
  refine ⟨by decide, by decide, by decide⟩

/-! ## Claim C2: chart failures during profiling -/

/-- Claim C2 (amended): a chart rendering failure is not caught at the
chart level: when the first attempted histogram column fails while the
preceding chart steps yield no error, the failure propagates and
run_eda as a whole returns that error instead of a chart mapping (the
remaining charts are never attempted; only the orchestrator catches the
failure, at stage granularity). -/
theorem c2_chart_failure_propagates (corrM : Nat → Nat → ℚ)
    (describeF : Frame → List NumRow) (rMiss rCorr : Except String String)
    (rHist rBar : String → Except String String) (f : Frame) (c : String) (e : String)
    (h1 : totalMissing f = 0 ∨ ∃ p, rMiss = Except.ok p)
    (h2 : (numericNames f).length < 2 ∨ ∃ p, rCorr = Except.ok p)
    (hc : (((numericNames f).take 100).take max_numeric_hists).head? = some c)
    (hh : rHist c = Except.error e) :
    run_eda corrM describeF rMiss rCorr rHist rBar f = Except.error e ∧
    ∀ out, run_eda corrM describeF rMiss rCorr rHist rBar f ≠ Except.ok out := by
  have hmain : run_eda corrM describeF rMiss rCorr rHist rBar f = Except.error e := by
    obtain ⟨ys, hys⟩ := List.head?_eq_some_iff.mp hc
    have hrend : renderEach (fun c => "Distribution — " ++ c) rHist
        (((numericNames f).take 100).take max_numeric_hists) = Except.error e := by
      rw [hys]; simp [renderEach, hh]
    by_cases hm : totalMissing f = 0 <;> by_cases hn : (numericNames f).length < 2 <;>
      [skip; skip; (rcases h1 with h1 | ⟨p1, h1⟩; exact absurd h1 hm);
        (rcases h1 with h1 | ⟨p1, h1⟩; exact absurd h1 hm)] <;>
      [skip; (rcases h2 with h2 | ⟨p2, h2⟩; exact absurd h2 hn); skip;
        (rcases h2 with h2 | ⟨p2, h2⟩; exact absurd h2 hn)] <;>
      simp [run_eda, run_eda_charts, hrend, hm, hn, Except.map, Except.bind,
        bind, pure, Except.pure, h1, h2]
  refine ⟨hmain, fun out h => ?_⟩
  rw [hmain] at h
  exact Except.noConfusion h

/-- Witness for C2 (amended) at a concrete frame and renderer set. -/
theorem c2_chart_failure_propagates_witness :
    run_eda corrZero describeNone rendOk rendOk rendHistBoom rendBarOk frameC2 =
      Except.error "boom" ∧
    ∀ out, run_eda corrZero describeNone rendOk rendOk rendHistBoom rendBarOk frameC2 ≠
      Except.ok out :=
  c2_chart_failure_propagates corrZero describeNone rendOk rendOk rendHistBoom
    rendBarOk frameC2 "x" "boom" (Or.inl (by decide)) (Or.inl (by decide))
    (by decide) rfl

/-- Counterexample to C2 as stated: with a single failing histogram the
profiling stage does not return normally and no chart mapping at all is
produced, instead of the failed chart merely being excluded. -/
theorem c2_swallowed_counterexample :
    run_eda corrZero describeNone rendOk rendOk rendHistBoom rendBarOk frameC2 =
      Except.error "boom" ∧
    ¬ ∃ out, run_eda corrZero describeNone rendOk rendOk rendHistBoom rendBarOk frameC2 =
      Except.ok out := by
  have hmain : run_eda corrZero describeNone rendOk rendOk rendHistBoom rendBarOk frameC2 =
      Except.error "boom" := by rfl
  exact ⟨hmain, fun ⟨out, h⟩ => Except.noConfusion (hmain ▸ h)⟩

/-! ## Claim C6: missingness ranking -/

/-- Claim C6: the missingness ranking maps columns to their per-column
missing counts, sorted in descending count order with ties broken by
the original column order (pandas sort_values is stable for descending
sorts via the nargsort double reversal), and truncated to at most
twenty entries; it coincides with the stable-descending ranking the
specification describes. -/
theorem c6_missingness_ranking (f : Frame) : missingRankingSpec f := by
  have hsorted : List.Pairwise (keyDescRel (fun p : String × Nat => p.2))
      (List.insertionSort (keyDescRel (fun p : String × Nat => p.2)) (colMissPairs f)) :=
    List.sorted_insertionSort _ _
  have hperm : (pandasSortValuesDesc (fun p : String × Nat => p.2) (colMissPairs f)).Perm
      (colMissPairs f) := List.perm_insertionSort _ _
  refine ⟨?_, hperm, ?_, ?_, ?_, rfl⟩
  · refine List.Pairwise.sublist (List.take_sublist _ _) ?_
    exact hsorted.imp (fun h => h)
  · intro k
    refine filter_insertionSort _ _ ?_ _
    intro a b ha hb
    have ha2 : a.2 = k := by simpa using ha
    have hb2 : b.2 = k := by simpa using hb
    simp [keyDescRel, ha2, hb2]
  · rw [missing_by_col, List.length_take, pandasSortValuesDesc,
      List.length_insertionSort, colMissPairs, List.length_map]
  · intro x hx
    exact hperm.mem_iff.mp (List.mem_of_mem_take hx)

/-- Witness for C6: a thirty-column frame with pairwise distinct
missing counts yields exactly twenty entries, and at a frame with two
tied columns the ties keep the original column order. -/
theorem c6_missingness_ranking_witness :
    missingRankingSpec frameC6b ∧ (missing_by_col frameC6b).length = 20 ∧
    missing_by_col frameC6 = [("a", 1), ("b", 1)] :=
  ⟨c6_missingness_ranking frameC6b, by decide, by decide⟩

/-! ## Claim C4: correlation ranking -/

/-- No self-pairs in the lower-triangle scan (distinct indices name
distinct columns when the names are unique). -/
theorem corr_scan_no_self (names : List String) (corrM : Nat → Nat → ℚ)
    (h : names.Nodup) : ∀ x ∈ corr_scan names corrM, x.1 ≠ x.2.1 := by
  intro x hx
  rw [corr_scan_eq_map] at hx
  obtain ⟨⟨i, j⟩, hmem, rfl⟩ := List.mem_map.mp hx
  obtain ⟨hji, hin⟩ := mem_idxScan.mp hmem
  intro heq
  rw [List.getD_eq_getElem _ _ hin, List.getD_eq_getElem _ _ (lt_trans hji hin)] at heq
  exact absurd (h.getElem_inj_iff.mp heq) (by omega)

/-- No duplicate unordered pairs in the lower-triangle scan. -/
theorem corr_scan_nodup_pairs (names : List String) (corrM : Nat → Nat → ℚ)
    (h : names.Nodup) :
    List.Pairwise
      (fun a b => ¬ (a.1 = b.1 ∧ a.2.1 = b.2.1) ∧ ¬ (a.1 = b.2.1 ∧ a.2.1 = b.1))
      (corr_scan names corrM) := by
  have hgetD : ∀ {i j : Nat}, i < names.length → j < names.length →
      names.getD i "" = names.getD j "" → i = j := by
    intro i j hi hj heq
    rw [List.getD_eq_getElem _ _ hi, List.getD_eq_getElem _ _ hj] at heq
    exact h.getElem_inj_iff.mp heq
  rw [corr_scan_eq_map, List.pairwise_map]
  refine List.Pairwise.imp_of_mem ?_ (nodup_idxScan names.length)
  rintro ⟨i, j⟩ ⟨i2, j2⟩ hm hm2 hne
  obtain ⟨hji, hin⟩ := mem_idxScan.mp hm
  obtain ⟨hji2, hin2⟩ := mem_idxScan.mp hm2
  have hjn : j < names.length := lt_trans hji hin
  have hjn2 : j2 < names.length := lt_trans hji2 hin2
  constructor
  · rintro ⟨h1, h2⟩
    exact hne (Prod.ext (hgetD hin hin2 h1) (hgetD hjn hjn2 h2))
  · rintro ⟨h1, h2⟩
    have e1 : i = j2 := hgetD hin hjn2 h1
    have e2 : j = i2 := hgetD hjn hin2 h2
    omega

/-- Every unordered pair of distinct numeric columns occurs in the
scan. -/
theorem corr_scan_cover (names : List String) (corrM : Nat → Nat → ℚ) :
    ∀ i j, j < i → i < names.length →
      (names.getD i "", names.getD j "", |corrM i j|) ∈ corr_scan names corrM := by
  intro i j hji hin
  rw [corr_scan_eq_map]
  exact List.mem_map.mpr ⟨(i, j), mem_idxScan.mpr ⟨hji, hin⟩, rfl⟩

/-- Below two columns the scan is empty. -/
theorem corr_scan_nil (names : List String) (corrM : Nat → Nat → ℚ)
    (h : names.length < 2) : corr_scan names corrM = [] := by
  rcases names with _ | ⟨x, _ | ⟨y, t⟩⟩
  · rfl
  · rfl
  · simp at h
    omega

/-- Claim C4: the correlation ranking has one entry per unordered pair
of distinct numeric columns, is empty below two numeric columns, is
sorted descending by absolute correlation with ties in row-major
lower-triangle scan order, is truncated to the top twenty, and each
reported magnitude is rounded to three decimals. -/
theorem c4_correlation_ranking (f : Frame) (corrM : Nat → Nat → ℚ)
    (h : (numericNames f).Nodup) : corrRankingSpec f corrM := by
  have htake : 2 ≤ (numericNames f).length →
      correlation_pairs corrM f corr_top_k =
        (sortDescStable (fun p : String × String × ℚ => p.2.2)
          (corr_scan (numericNames f) corrM)).take 20 := by
    intro hge
    simp only [correlation_pairs]
    rw [if_neg (by omega)]
    rfl
  refine ⟨?_, htake, corr_scan_no_self _ corrM h, corr_scan_nodup_pairs _ corrM h,
    corr_scan_cover _ corrM, List.perm_insertionSort _ _, ?_, ?_, ?_, rfl⟩
  · intro hlt
    simp only [correlation_pairs]
    rw [if_pos hlt]
  · by_cases hge : 2 ≤ (numericNames f).length
    · rw [htake hge]
      refine List.Pairwise.sublist (List.take_sublist _ _) ?_
      have hs := List.sorted_insertionSort
        (keyDescRel (fun p : String × String × ℚ => p.2.2))
        (corr_scan (numericNames f) corrM)
      exact hs.imp (fun hab => hab)
    · simp only [correlation_pairs]
      rw [if_pos (by omega)]
      exact List.Pairwise.nil
  · intro q
    refine filter_insertionSort _ _ ?_ _
    intro a b ha hb
    have ha2 : a.2.2 = q := by simpa using ha
    have hb2 : b.2.2 = q := by simpa using hb
    simp [keyDescRel, ha2, hb2]
  · by_cases hge : 2 ≤ (numericNames f).length
    · rw [htake hge, List.length_take, sortDescStable, List.length_insertionSort]
    · have h0 : corr_scan (numericNames f) corrM = [] := corr_scan_nil _ corrM (by omega)
      simp only [correlation_pairs]
      rw [if_pos (by omega), h0]
      rfl

/-- Witness for C4 on the specification example: three numeric columns
where the B, A pair has magnitude 0.9 and both pairs with C have
magnitude 0.5; the strongest pair comes first and the two tied pairs
appear in row-major scan order. -/
theorem c4_correlation_ranking_witness :
    ((numericNames frameC4).Nodup ∧ corrRankingSpec frameC4 corrC4) ∧
    top_correlations corrC4 frameC4 =
      [⟨"B", "A", 9/10⟩, ⟨"C", "A", 1/2⟩, ⟨"C", "B", 1/2⟩] := by
  refine ⟨⟨by decide, c4_correlation_ranking frameC4 corrC4 (by decide)⟩, ?_⟩
  have h1 : numericNames frameC4 = ["A", "B", "C"] := by decide
  have habs1 : |corrC4 1 0| = 9/10 := by
    rw [corrC4]
    norm_num
  have habs2 : |corrC4 2 0| = 1/2 := by
    rw [corrC4]
    norm_num
  have habs3 : |corrC4 2 1| = 1/2 := by
    rw [corrC4]
    norm_num
  have hscan : corr_scan ["A", "B", "C"] corrC4 =
      [("B", "A", |corrC4 1 0|), ("C", "A", |corrC4 2 0|), ("C", "B", |corrC4 2 1|)] := by
    simp [corr_scan, List.range_succ]
  have hr900 : pyRound3 (9/10) = 9/10 := by
    have hm : (9:ℚ)/10 * 1000 = ((900:ℤ) : ℚ) := by norm_num
    rw [pyRound3, roundHalfEven, hm, Int.floor_intCast]
    norm_num
  have hr500 : pyRound3 (1/2) = 1/2 := by
    have hm : (1:ℚ)/2 * 1000 = ((500:ℤ) : ℚ) := by norm_num
    rw [pyRound3, roundHalfEven, hm, Int.floor_intCast]
    norm_num
  rw [top_correlations, correlation_pairs]
  simp only [h1]
  rw [if_neg (by norm_num)]
  rw [hscan, habs1, habs2, habs3]
  rw [sortDescStable]
  simp only [List.insertionSort, List.orderedInsert, keyDescRel]
  rw [List.orderedInsert.eq_def]
  norm_num [keyDescRel, hr900, hr500, corr_top_k]


/-! ## Claim C3: datetime coercion threshold -/

theorem clearsThreshold_eq_true (p : String → Option Int) (vals : List (Option String))
    (a b : Nat) (h1 : (parsedCol p vals).countP (fun v => v.isSome) = a)
    (h2 : (parsedCol p vals).length = b) (h3 : (a : ℚ) / (b : ℚ) > 9/10) :
    clearsThreshold p vals = true := by
  rw [clearsThreshold, notnaRate, h1, h2]
  exact decide_eq_true h3

theorem clearsThreshold_eq_false (p : String → Option Int) (vals : List (Option String))
    (a b : Nat) (h1 : (parsedCol p vals).countP (fun v => v.isSome) = a)
    (h2 : (parsedCol p vals).length = b) (h3 : ¬ ((a : ℚ) / (b : ℚ) > 9/10)) :
    clearsThreshold p vals = false := by
  rw [clearsThreshold, notnaRate, h1, h2]
  exact decide_eq_false h3

/-- Claim C3 (amended): a textual column is reclassified as temporal
exactly when one of the five fixed patterns, or otherwise generic
parsing, parses strictly more than ninety percent of all of the column
cells (missing cells count against the rate, since the source divides
the notna count by the full column length); the first fixed pattern
clearing the threshold wins and rewrites the column with its parses
(unparseable cells become missing), the generic parser is consulted
only when no fixed pattern clears, and non-textual columns are left
unchanged. -/
theorem c3_coercion_threshold (fp : String → String → Option Int)
    (gp : String → Option Int) (nm : String) (vals : List (Option String)) :
    ((coerce_col fp gp ⟨nm, ColData.textual vals⟩).data.isTemporal = true ↔
      (∃ fmt ∈ common_formats, notnaRate (parsedCol (fp fmt) vals) > 9/10) ∨
        notnaRate (parsedCol gp vals) > 9/10) ∧
    (∀ fmt, common_formats.find? (fun fmt => clearsThreshold (fp fmt) vals) = some fmt →
      (coerce_col fp gp ⟨nm, ColData.textual vals⟩).data =
        ColData.temporal (parsedCol (fp fmt) vals)) ∧
    (common_formats.find? (fun fmt => clearsThreshold (fp fmt) vals) = none →
      notnaRate (parsedCol gp vals) > 9/10 →
      (coerce_col fp gp ⟨nm, ColData.textual vals⟩).data =
        ColData.temporal (parsedCol gp vals)) ∧
    (common_formats.find? (fun fmt => clearsThreshold (fp fmt) vals) = none →
      ¬ (notnaRate (parsedCol gp vals) > 9/10) →
      coerce_col fp gp ⟨nm, ColData.textual vals⟩ = ⟨nm, ColData.textual vals⟩) ∧
    (∀ c : Col, c.data.isTextual = false → coerce_col fp gp c = c) ∧
    (coerce_col fp gp ⟨nm, ColData.textual vals⟩).name = nm ∧
    (∀ fr : Frame, coerce_datetime fp gp fr = ⟨fr.cols.map (coerce_col fp gp)⟩) := by
  have huntouched : ∀ c : Col, c.data.isTextual = false → coerce_col fp gp c = c := by
    intro c hc
    rcases c with ⟨cn, cd⟩
    cases cd with
    | numeric vs => rfl
    | textual vs => simp [ColData.isTextual] at hc
    | temporal vs => rfl
  refine ⟨?_, ?_, ?_, ?_, huntouched, ?_, fun fr => rfl⟩
  · rcases hfind : common_formats.find? (fun fmt => clearsThreshold (fp fmt) vals) with _ | fmt
    · have hnone : ∀ fmt ∈ common_formats, ¬ (notnaRate (parsedCol (fp fmt) vals) > 9/10) := by
        intro fmt hm hrate
        have := List.find?_eq_none.mp hfind fmt hm
        rw [clearsThreshold] at this
        exact this (decide_eq_true hrate)
      by_cases hg : notnaRate (parsedCol gp vals) > 9/10
      · simp only [coerce_col, hfind]
        rw [if_pos (by rw [clearsThreshold]; exact decide_eq_true hg)]
        simp [ColData.isTemporal, hg]
      · simp only [coerce_col, hfind]
        rw [if_neg (by rw [clearsThreshold]; simpa using hg)]
        simp only [ColData.isTemporal]
        constructor
        · intro hfalse
          exact absurd hfalse (by simp)
        · rintro (⟨fmt, hm, hrate⟩ | hg2)
          · exact absurd hrate (hnone fmt hm)
          · exact absurd hg2 hg
    · have hp := List.find?_some hfind
      have hmem := List.mem_of_find?_eq_some hfind
      rw [clearsThreshold, decide_eq_true_eq] at hp
      simp only [coerce_col, hfind]
      simp only [ColData.isTemporal]
      exact ⟨fun _ => Or.inl ⟨fmt, hmem, hp⟩, fun _ => trivial⟩
  · intro fmt hfind
    simp only [coerce_col, hfind]
  · intro hfind hg
    simp only [coerce_col, hfind]
    rw [if_pos (by rw [clearsThreshold]; exact decide_eq_true hg)]
  · intro hfind hg
    simp only [coerce_col, hfind]
    rw [if_neg (by rw [clearsThreshold]; simpa using hg)]
  · rcases hfind : common_formats.find? (fun fmt => clearsThreshold (fp fmt) vals) with _ | fmt
    · simp only [coerce_col, hfind]
      split <;> rfl
    · simp only [coerce_col, hfind]

/-- Witness for C3: the two specification examples.  A column of 100
cells with 95 parseable under the first pattern is rewritten as
temporal by that pattern; a column with 85 of 100 parseable stays
textual. -/
theorem c3_coercion_threshold_witness :
    (coerce_col parseOnlyFirstFmt parseNothing ⟨"d95", ColData.textual colVals95⟩).data =
      ColData.temporal (parsedCol (parseOnlyFirstFmt "%Y-%m-%d") colVals95) ∧
    coerce_col parseOnlyFirstFmt parseNothing ⟨"d85", ColData.textual colVals85⟩ =
      ⟨"d85", ColData.textual colVals85⟩ := by
  constructor
  · refine (c3_coercion_threshold parseOnlyFirstFmt parseNothing "d95" colVals95).2.1
      "%Y-%m-%d" ?_
    have h1 : clearsThreshold (parseOnlyFirstFmt "%Y-%m-%d") colVals95 = true :=
      clearsThreshold_eq_true _ _ 95 100 (by decide) (by decide) (by norm_num)
    rw [common_formats]
    exact List.find?_cons_of_pos _ h1
  · refine (c3_coercion_threshold parseOnlyFirstFmt parseNothing "d85" colVals85).2.2.2.1
      ?_ ?_
    · refine List.find?_eq_none.mpr ?_
      intro fmt hm
      simp only [Bool.not_eq_true]
      fin_cases hm
      · exact clearsThreshold_eq_false _ _ 85 100 (by decide) (by decide) (by norm_num)
      · exact clearsThreshold_eq_false _ _ 0 100 (by decide) (by decide) (by norm_num)
      · exact clearsThreshold_eq_false _ _ 0 100 (by decide) (by decide) (by norm_num)
      · exact clearsThreshold_eq_false _ _ 0 100 (by decide) (by decide) (by norm_num)
      · exact clearsThreshold_eq_false _ _ 0 100 (by decide) (by decide) (by norm_num)
    · have : clearsThreshold parseNothing colVals85 = false :=
        clearsThreshold_eq_false _ _ 0 100 (by decide) (by decide) (by norm_num)
      rw [clearsThreshold] at this
      simpa using of_decide_eq_false this

/-- Counterexample to C3 as stated: a column with four missing cells
among ten, whose six present cells all parse under the first pattern
(a 100 percent rate over non-missing values, clearing the claim
threshold), is nevertheless left textual, because the source divides by
the full column length. -/
theorem c3_nonmissing_rate_counterexample :
    (∃ fmt ∈ common_formats,
      nonMissingParseRate (parseOnlyFirstFmt fmt) colValsMissing > 9/10) ∧
    coerce_col parseOnlyFirstFmt parseNothing colC3 = colC3 ∧
    (coerce_col parseOnlyFirstFmt parseNothing colC3).data.isTemporal = false := by
  have hspec : nonMissingParseRate (parseOnlyFirstFmt "%Y-%m-%d") colValsMissing > 9/10 := by
    have h1 : colValsMissing.countP
        (fun v => (v.bind (parseOnlyFirstFmt "%Y-%m-%d")).isSome) = 6 := by decide
    have h2 : colValsMissing.countP (fun v => v.isSome) = 6 := by decide
    rw [nonMissingParseRate, h1, h2]
    norm_num
  have hunchanged : coerce_col parseOnlyFirstFmt parseNothing colC3 = colC3 := by
    refine (c3_coercion_threshold parseOnlyFirstFmt parseNothing "when"
      colValsMissing).2.2.2.1 ?_ ?_
    · refine List.find?_eq_none.mpr ?_
      intro fmt hm
      simp only [Bool.not_eq_true]
      fin_cases hm
      · exact clearsThreshold_eq_false _ _ 6 10 (by decide) (by decide) (by norm_num)
      · exact clearsThreshold_eq_false _ _ 0 10 (by decide) (by decide) (by norm_num)
      · exact clearsThreshold_eq_false _ _ 0 10 (by decide) (by decide) (by norm_num)
      · exact clearsThreshold_eq_false _ _ 0 10 (by decide) (by decide) (by norm_num)
      · exact clearsThreshold_eq_false _ _ 0 10 (by decide) (by decide) (by norm_num)
    · have : clearsThreshold parseNothing colValsMissing = false :=
        clearsThreshold_eq_false _ _ 0 10 (by decide) (by decide) (by norm_num)
      rw [clearsThreshold] at this
      simpa using of_decide_eq_false this
  refine ⟨⟨"%Y-%m-%d", by decide, hspec⟩, hunchanged, ?_⟩
  rw [hunchanged]
  rfl

/-! ## Claim C7: key drivers and the fallback sentence -/

/-- A driver sentence can never coincide with the fallback sentence:
it contains the connective text, which the fallback does not. -/
theorem driverSentence_ne_fallback (c : CorrRow) : driverSentence c ≠ driversFallback := by
  intro h
  have hinf : (" move together (|r|=").data <:+: (driverSentence c).data := by
    have hsplit : (driverSentence c).data =
        (c.col_x ++ " and " ++ c.col_y).data ++ (" move together (|r|=").data ++
          (showRat c.abs_r ++ ").").data := by
      simp [driverSentence, String.data_append, List.append_assoc]
    rw [hsplit]
    exact List.infix_append _ _ _
  rw [h] at hinf
  exact absurd hinf (by decide)

/-- Claim C7: key_drivers carries one sentence per pair among the top
three correlation pairs, each sentence naming both columns and the
magnitude; key_drivers is exactly the single fallback sentence exactly
when the profile has no correlation pairs, and a profile with at least
one pair never contains the fallback sentence. -/
theorem c7_key_drivers_fallback (st : Stats) (charts : List (String × String)) :
    (st.top_correlations = [] →
      (generate_narrative ⟨st, charts⟩).key_drivers = [driversFallback]) ∧
    (st.top_correlations ≠ [] →
      (generate_narrative ⟨st, charts⟩).key_drivers =
        (st.top_correlations.take 3).map driverSentence ∧
      driversFallback ∉ (generate_narrative ⟨st, charts⟩).key_drivers ∧
      (generate_narrative ⟨st, charts⟩).key_drivers.length =
        min 3 st.top_correlations.length) ∧
    ((generate_narrative ⟨st, charts⟩).key_drivers = [driversFallback] ↔
      st.top_correlations = []) ∧
    (∀ c ∈ st.top_correlations.take 3,
      c.col_x.data <:+: (driverSentence c).data ∧
      c.col_y.data <:+: (driverSentence c).data ∧
      (showRat c.abs_r).data <:+: (driverSentence c).data) := by
  have hempty : st.top_correlations = [] →
      (generate_narrative ⟨st, charts⟩).key_drivers = [driversFallback] := by
    intro h
    simp [generate_narrative, h]
  have hfull : st.top_correlations ≠ [] →
      (generate_narrative ⟨st, charts⟩).key_drivers =
        (st.top_correlations.take 3).map driverSentence := by
    intro h
    have hne : (st.top_correlations.take 3).map driverSentence ≠ [] := by
      simp only [ne_eq, List.map_eq_nil_iff, List.take_eq_nil_iff]
      simpa using h
    simp only [generate_narrative]
    rw [if_neg (by simpa [List.isEmpty_iff] using hne)]
  refine ⟨hempty, fun h => ⟨hfull h, ?_, ?_⟩, ⟨?_, hempty⟩, ?_⟩
  · rw [hfull h]
    intro hmem
    obtain ⟨c, _, hc⟩ := List.mem_map.mp hmem
    exact driverSentence_ne_fallback c hc
  · rw [hfull h]
    simp [List.length_take, min_comm]
  · intro heq
    by_contra hne
    have hdr := hfull hne
    rw [heq] at hdr
    have : driversFallback ∈ (st.top_correlations.take 3).map driverSentence := by
      rw [← hdr]; exact List.mem_singleton.mpr rfl
    obtain ⟨c, _, hc⟩ := List.mem_map.mp this
    exact driverSentence_ne_fallback c hc
  · intro c _
    refine ⟨?_, ?_, ?_⟩
    · have hsplit : (driverSentence c).data =
          [] ++ c.col_x.data ++
            (" and " ++ c.col_y ++ " move together (|r|=" ++ showRat c.abs_r ++ ").").data := by
        simp [driverSentence, String.data_append, List.append_assoc]
      rw [hsplit]
      exact List.infix_append _ _ _
    · have hsplit : (driverSentence c).data =
          (c.col_x ++ " and ").data ++ c.col_y.data ++
            (" move together (|r|=" ++ showRat c.abs_r ++ ").").data := by
        simp [driverSentence, String.data_append, List.append_assoc]
      rw [hsplit]
      exact List.infix_append _ _ _
    · have hsplit : (driverSentence c).data =
          (c.col_x ++ " and " ++ c.col_y ++ " move together (|r|=").data ++
            (showRat c.abs_r).data ++ (").").data := by
        simp [driverSentence, String.data_append, List.append_assoc]
      rw [hsplit]
      exact List.infix_append _ _ _

/-- Witness for C7: a profile with one correlation pair yields exactly
its driver sentence (no fallback); a profile with none yields exactly
the fallback. -/
theorem c7_key_drivers_fallback_witness :
    (generate_narrative ⟨statsC7, []⟩).key_drivers =
      [driverSentence ⟨"A", "B", 9/10⟩] ∧
    driversFallback ∉ (generate_narrative ⟨statsC7, []⟩).key_drivers ∧
    (generate_narrative ⟨statsC7empty, []⟩).key_drivers = [driversFallback] := by
  have h1 := (c7_key_drivers_fallback statsC7 []).2.1 (by
    show statsC7.top_correlations ≠ []
    intro h
    exact List.noConfusion h)
  refine ⟨?_, h1.2.1, (c7_key_drivers_fallback statsC7empty []).1 rfl⟩
  rw [h1.1]
  rfl

/-! ## Claim C10: missingness is always reported -/

/-- An element of a joined list is an infix of the joined string. -/
theorem mem_infixOf_joinSep (sep s : String) (l : List String) (h : s ∈ l) :
    s.data <:+: (joinSep sep l).data := by
  induction l with
  | nil => exact absurd h (List.not_mem_nil s)
  | cons x xs ih =>
    rcases xs with _ | ⟨y, ys⟩
    · rcases List.mem_singleton.mp h with rfl
      exact List.infix_refl _
    · rcases List.mem_cons.mp h with rfl | hmem
      · refine ⟨[], ((sep ++ joinSep sep (y :: ys)).data), ?_⟩
        simp [joinSep, String.data_append, List.append_assoc]
      · obtain ⟨a, b, hab⟩ := ih hmem
        refine ⟨(x ++ sep).data ++ a, b, ?_⟩
        have hj : (joinSep sep (x :: y :: ys)).data =
            x.data ++ sep.data ++ (joinSep sep (y :: ys)).data := by
          simp [joinSep, String.data_append, List.append_assoc]
        rw [hj, ← hab, String.data_append]
        simp [List.append_assoc]

/-- The missingness ranking of a non-empty frame is non-empty. -/
theorem missing_by_col_ne_nil (f : Frame) (h : f.cols ≠ []) :
    missing_by_col f ≠ [] := by
  have hlen : (missing_by_col f).length = min 20 f.cols.length := by
    rw [missing_by_col, List.length_take, pandasSortValuesDesc,
      List.length_insertionSort, colMissPairs, List.length_map]
  intro hnil
  rw [hnil] at hlen
  have hpos : 0 < f.cols.length := List.length_pos.mpr h
  simp at hlen
  omega

/-- The missingness ranking of the empty frame is empty. -/
theorem missing_by_col_nil : missing_by_col ⟨[]⟩ = [] := by
  rfl

/-- Claim C10: the missing-by-column mapping keeps zero counts, so for
every non-empty frame it is non-empty; consequently the executive
summary always contains the missingness clause and the anomalies always
contain the missingness caveat, while the no-issues fallback is
reachable exactly for the zero-column frame (which also has at most 60
columns). -/
theorem c10_missingness_always_reported (f : Frame) (corrM : Nat → Nat → ℚ)
    (describeF : Frame → List NumRow) (charts : List (String × String)) :
    (f.cols ≠ [] →
      (edaStats corrM describeF f).missing_by_col ≠ [] ∧
      (missClause ((edaStats corrM describeF f).missing_by_col.take 5)).data <:+:
        (generate_narrative ⟨edaStats corrM describeF f, charts⟩).executive_summary.data ∧
      missBiasCaveat ∈ (generate_narrative ⟨edaStats corrM describeF f, charts⟩).anomalies ∧
      noIssuesFallback ∉ (generate_narrative ⟨edaStats corrM describeF f, charts⟩).anomalies) ∧
    (noIssuesFallback ∈ (generate_narrative ⟨edaStats corrM describeF f, charts⟩).anomalies ↔
      f.cols = []) ∧
    (f.cols = [] → (edaStats corrM describeF f).n_cols ≤ 60) := by
  have hmbc : (edaStats corrM describeF f).missing_by_col = missing_by_col f := rfl
  have hncols : (edaStats corrM describeF f).n_cols = f.cols.length := rfl
  have hnonempty : f.cols ≠ [] →
      (edaStats corrM describeF f).missing_by_col ≠ [] := by
    rw [hmbc]; exact missing_by_col_ne_nil f
  have htake5 : f.cols ≠ [] →
      ((edaStats corrM describeF f).missing_by_col.take 5) ≠ [] := by
    intro h
    simp only [ne_eq, List.take_eq_nil_iff]
    simpa using hnonempty h
  have h5e : f.cols ≠ [] →
      ((edaStats corrM describeF f).missing_by_col.take 5).isEmpty = false := by
    intro h
    have hne := htake5 h
    rcases hh : ((edaStats corrM describeF f).missing_by_col.take 5).isEmpty with _ | _
    · rfl
    · exact absurd (List.isEmpty_iff.mp hh) hne
  have hanom : f.cols ≠ [] →
      (generate_narrative ⟨edaStats corrM describeF f, charts⟩).anomalies =
        missBiasCaveat ::
          (if 60 < (edaStats corrM describeF f).n_cols then [wideCaveat] else []) := by
    intro h
    simp only [generate_narrative, h5e h]
    simp
  constructor
  · intro h
    refine ⟨hnonempty h, ?_, ?_, ?_⟩
    · have hmem : missClause ((edaStats corrM describeF f).missing_by_col.take 5) ∈
          execLines (edaStats corrM describeF f) := by
        rw [execLines]
        refine List.mem_append.mpr (Or.inl ?_)
        refine List.mem_append.mpr (Or.inr ?_)
        rw [if_neg (by simp [h5e h])]
        exact List.mem_singleton.mpr rfl
      exact mem_infixOf_joinSep " " _ _ hmem
    · rw [hanom h]
      exact List.mem_cons_self _ _
    · rw [hanom h]
      intro hmem
      rcases List.mem_cons.mp hmem with heq | hmem
      · exact absurd heq (by decide)
      · by_cases hc : 60 < (edaStats corrM describeF f).n_cols
        · rw [if_pos hc] at hmem
          exact absurd (List.mem_singleton.mp hmem) (by decide)
        · rw [if_neg hc] at hmem
          exact absurd hmem (List.not_mem_nil _)
  · constructor
    · constructor
      · intro hmem
        by_contra hne
        rw [hanom hne] at hmem
        rcases List.mem_cons.mp hmem with heq | hmem
        · exact absurd heq (by decide)
        · by_cases hc : 60 < (edaStats corrM describeF f).n_cols
          · rw [if_pos hc] at hmem
            exact absurd (List.mem_singleton.mp hmem) (by decide)
          · rw [if_neg hc] at hmem
            exact absurd hmem (List.not_mem_nil _)
      · intro h
        have hempty : (edaStats corrM describeF f).missing_by_col = [] := by
          rw [hmbc]
          have hf : f = ⟨[]⟩ := by cases f; simp_all
          rw [hf]
          exact missing_by_col_nil
        have hn0 : (edaStats corrM describeF f).n_cols = 0 := by
          rw [hncols, h]; rfl
        simp only [generate_narrative, hempty, hn0]
        simp
    · intro h
      rw [hncols, h]
      simp

/-- Witness for C10 at a one-column frame with no missing cells: the
ranking still lists the column and the caveats appear. -/
theorem c10_missingness_always_reported_witness :
    (edaStats corrZero describeNone frameC2).missing_by_col ≠ [] ∧
    missBiasCaveat ∈
      (generate_narrative ⟨edaStats corrZero describeNone frameC2, []⟩).anomalies ∧
    noIssuesFallback ∉
      (generate_narrative ⟨edaStats corrZero describeNone frameC2, []⟩).anomalies ∧
    (edaStats corrZero describeNone frameC2).missing_by_col = [("x", 0)] := by
  have h := (c10_missingness_always_reported frameC2 corrZero describeNone []).1
    (by intro h; exact List.noConfusion h)
  exact ⟨h.1, h.2.2.1, h.2.2.2, by decide⟩

/-! ## Claim C9: report download boundary -/

/-- Claim C9 (amended): the download endpoint serves exactly the files
that exist and whose final name component starts with the report prefix
and carries the pptx extension (case-insensitively); containment in the
storage directory is not checked, so a traversal filename whose final
component matches the convention is served. -/
theorem c9_download_checks (fs : String → Bool) (storage filename : String) :
    (download_report fs storage filename = some (pyJoin storage filename) ↔
      fs (pyJoin storage filename) = true ∧
      strStartsWith (pyNameOf (pyJoin storage filename)) "report_" = true ∧
      strLower (pySuffixOf (pyNameOf (pyJoin storage filename))) = ".pptx") ∧
    (∀ r, download_report fs storage filename = some r →
      r = pyJoin storage filename) := by
  constructor
  · by_cases h1 : fs (pyJoin storage filename) = true <;>
      by_cases h2 : strStartsWith (pyNameOf (pyJoin storage filename)) "report_" = true <;>
      by_cases h3 : strLower (pySuffixOf (pyNameOf (pyJoin storage filename))) = ".pptx" <;>
      simp [download_report, h1, h2, h3]
  · intro r hr
    simp only [download_report] at hr
    split at hr
    · exact absurd hr (by simp)
    · exact (Option.some.inj hr).symm

/-- Witness for C9 (amended): a well-named existing file inside the
storage directory is served. -/
theorem c9_download_checks_witness :
    download_report fsC9ok "storage" "report_a.pptx" =
      some (pyJoin "storage" "report_a.pptx") ∧
    pyJoin "storage" "report_a.pptx" = "storage/report_a.pptx" :=
  ⟨(c9_download_checks fsC9ok "storage" "report_a.pptx").1.mpr
    ⟨by decide, by decide, by decide⟩, by decide⟩

/-- Counterexample to C9 as stated: a filename that resolves outside
the storage directory but whose final component matches the naming
convention is served, not rejected. -/
theorem c9_traversal_counterexample :
    download_report fsC9 "storage" "../report_evil.pptx" =
      some "storage/../report_evil.pptx" ∧
    resolvesInsideDir "storage" "../report_evil.pptx" = false := by
  exact ⟨by decide, by decide⟩

end EdaAuto
